import Mathlib

/-!
Shallow embedding of the f3rva-workout-service lookup core:
the data models (src/app/models/workout.py), the database gateway
(src/app/core/database.py), the workout service
(src/app/services/workout_service.py) and the HTTP handlers
(src/app/api/workouts.py).  Database results are modelled as oracles:
each query the code issues is paired with the outcome the storage layer
would produce for it (a list of rows, or a raised error carried as a
string message).  Handlers and service operations additionally report
which queries they issued and which log lines they emitted, so that
claims about queries never being issued and causes being logged are
statable.
-/

namespace F3

/-- A calendar date as produced by Python datetime.date(year, month, day). -/
structure Date where
  year : Int
  month : Int
  day : Int
deriving DecidableEq

/-- Gregorian leap-year rule used by Python datetime. -/
def isLeapYear (y : Int) : Bool :=
  y % 4 == 0 && (y % 100 != 0 || y % 400 == 0)

/-- Number of days in a month, as enforced by Python datetime.date. -/
def daysInMonth (y m : Int) : Int :=
  if m == 2 then (if isLeapYear y then 29 else 28)
  else if m == 4 || m == 6 || m == 9 || m == 11 then 30
  else 31

/-- Python datetime.date construction: raises ValueError (modelled as
Except.error with the message text) unless 1 <= year <= 9999,
1 <= month <= 12 and 1 <= day <= days in that month. -/
def mkDate (y m d : Int) : Except String Date :=
  if ¬(1 ≤ y ∧ y ≤ 9999) then Except.error "year is out of range"
  else if ¬(1 ≤ m ∧ m ≤ 12) then Except.error "month must be in 1..12"
  else if ¬(1 ≤ d ∧ d ≤ daysInMonth y m) then
    Except.error "day is out of range for month"
  else Except.ok ⟨y, m, d⟩

/-- Zero-padded two-digit rendering used by str(date) for month and day. -/
def pad2 (n : Int) : String :=
  if n < 10 then "0" ++ toString n else toString n

/-- Zero-padded four-digit rendering used by str(date) for the year. -/
def pad4 (n : Int) : String :=
  if n < 10 then "000" ++ toString n
  else if n < 100 then "00" ++ toString n
  else if n < 1000 then "0" ++ toString n
  else toString n

/-- str(date) in Python: ISO format YYYY-MM-DD. -/
def dateStr (d : Date) : String :=
  pad4 d.year ++ "-" ++ pad2 d.month ++ "-" ++ pad2 d.day

/-- QICModel from src/app/models/workout.py. -/
structure QICModel where
  name : String
  f3_name : Option String
deriving DecidableEq

/-- PAXModel from src/app/models/workout.py. -/
structure PAXModel where
  name : String
  f3_name : Option String
deriving DecidableEq

/-- AOSModel from src/app/models/workout.py. -/
structure AOSModel where
  name : String
  description : Option String
deriving DecidableEq

/-- WorkoutModel from src/app/models/workout.py. -/
structure WorkoutModel where
  workout_date : Date
  qic : QICModel
  pax : List PAXModel
  aos : List AOSModel
  url_slug : String
deriving DecidableEq

/-- WorkoutResponse from src/app/models/workout.py. -/
structure WorkoutResponse where
  success : Bool
  message : Option String
  data : Option WorkoutModel
deriving DecidableEq

/-- WorkoutRequest from src/app/models/workout.py (the field values; the
pydantic range constraints are the predicate WorkoutRequest.valid below). -/
structure WorkoutRequest where
  year : Int
  month : Int
  day : Int
  url_slug : String
deriving DecidableEq

/-- The pydantic Field constraints on WorkoutRequest: year ge 2000 le 9999,
month ge 1 le 12, day ge 1 le 31.  A request body violating them is
rejected by the framework with status 422 before the handler runs. -/
def WorkoutRequest.valid (r : WorkoutRequest) : Bool :=
  decide (2000 ≤ r.year ∧ r.year ≤ 9999 ∧ 1 ≤ r.month ∧ r.month ≤ 12 ∧
    1 ≤ r.day ∧ r.day ≤ 31)

/-- A row of the session-header query in get_workout_by_date_and_slug:
the SELECT list fixes columns workout_date, url_slug, qic_name and the
nullable qic_f3_name. -/
structure HeaderRow where
  workout_date : Date
  url_slug : String
  qic_name : String
  qic_f3_name : Option String
deriving DecidableEq

/-- A row of the participant query in _get_pax_for_workout: columns
pax_name and the nullable f3_name. -/
structure PaxRow where
  pax_name : String
  f3_name : Option String
deriving DecidableEq

/-- A row of the activity-segment query in _get_aos_for_workout: columns
aos_name and the nullable description. -/
structure AosRow where
  aos_name : String
  description : Option String
deriving DecidableEq

/-- A row of the health query "SELECT 1 as status", kept as a dict so the
dict.get access in health_check (missing key gives None) is faithful. -/
abbrev StatusRow := List (String × Int)

/-- Python dict.get: the value under the key, or None when absent. -/
def StatusRow.get (r : StatusRow) (k : String) : Option Int :=
  (r.find? (fun p => p.1 == k)).map (fun p => p.2)

instance {ε α : Type} [DecidableEq ε] [DecidableEq α] : DecidableEq (Except ε α) :=
  fun a b =>
  match a, b with
  | Except.error x, Except.error y => decidable_of_iff (x = y) (by simp)
  | Except.error _, Except.ok _ => Decidable.isFalse (by simp)
  | Except.ok _, Except.error _ => Decidable.isFalse (by simp)
  | Except.ok x, Except.ok y => decidable_of_iff (x = y) (by simp)

/-- Oracle for one request: for each query the service can issue, the
outcome the storage layer would produce (rows, or a raised error whose
message is the string). -/
structure DB where
  headerResult : Except String (List HeaderRow)
  paxResult : Except String (List PaxRow)
  aosResult : Except String (List AosRow)
  healthResult : Except String (List StatusRow)
deriving DecidableEq

/-- Identifiers for the queries the service layer can issue. -/
inductive QueryId where
  | header
  | pax
  | aos
  | health
deriving DecidableEq

/-- execute_single in src/app/core/database.py: results[0] if results
else None, on an already-fetched result list. -/
def execSingle {α : Type} (l : List α) : Option α :=
  l.head?

/-- Result of a service operation: the returned value or raised error,
the queries issued on the way, and the error-level or info-level log
lines emitted. -/
structure ServiceOut (α : Type) where
  result : Except String α
  queries : List QueryId
  log : List String
deriving DecidableEq

namespace WorkoutService

/-- _get_pax_for_workout: runs the participant query and maps each row
1:1 to a PAXModel, preserving order. -/
def _get_pax_for_workout (db : DB) : ServiceOut (List PAXModel) :=
  match db.paxResult with
  | Except.error e => ⟨Except.error e, [QueryId.pax], []⟩
  | Except.ok rows =>
      ⟨Except.ok (rows.map (fun r => ⟨r.pax_name, r.f3_name⟩)), [QueryId.pax], []⟩

/-- _get_aos_for_workout: runs the activity-segment query and maps each
row 1:1 to an AOSModel, preserving order. -/
def _get_aos_for_workout (db : DB) : ServiceOut (List AOSModel) :=
  match db.aosResult with
  | Except.error e => ⟨Except.error e, [QueryId.aos], []⟩
  | Except.ok rows =>
      ⟨Except.ok (rows.map (fun r => ⟨r.aos_name, r.description⟩)), [QueryId.aos], []⟩

/-- get_workout_by_date_and_slug from src/app/services/workout_service.py:
run the header query via execute_single; on no row return None; otherwise
run the pax and aos queries, and assemble the WorkoutModel from the header
row and the mapped lists.  The surrounding try/except logs
"Error retrieving workout data: e" and re-raises on any error. -/
def get_workout_by_date_and_slug (db : DB) (workout_date : Date)
    (url_slug : String) : ServiceOut (Option WorkoutModel) :=
  match db.headerResult with
  | Except.error e =>
      ⟨Except.error e, [QueryId.header], ["Error retrieving workout data: " ++ e]⟩
  | Except.ok rows =>
      match execSingle rows with
      | none =>
          ⟨Except.ok none, [QueryId.header],
            ["No workout found for date " ++ dateStr workout_date ++
              " and slug " ++ url_slug]⟩
      | some h =>
          match _get_pax_for_workout db with
          | ⟨Except.error e, qs, _⟩ =>
              ⟨Except.error e, QueryId.header :: qs,
                ["Error retrieving workout data: " ++ e]⟩
          | ⟨Except.ok pax_list, qsp, _⟩ =>
              match _get_aos_for_workout db with
              | ⟨Except.error e, qs, _⟩ =>
                  ⟨Except.error e, QueryId.header :: qsp ++ qs,
                    ["Error retrieving workout data: " ++ e]⟩
              | ⟨Except.ok aos_list, qsa, _⟩ =>
                  ⟨Except.ok (some
                      { workout_date := h.workout_date
                        qic := ⟨h.qic_name, h.qic_f3_name⟩
                        pax := pax_list
                        aos := aos_list
                        url_slug := h.url_slug }),
                    QueryId.header :: qsp ++ qsa,
                    ["Retrieved workout data for " ++ dateStr workout_date ++
                      " - " ++ url_slug]⟩

/-- health_check from src/app/services/workout_service.py: execute_single
on "SELECT 1 as status"; true iff a row came back and row.get of status
equals 1.  The catch-all except turns every raised error into false (and
a log line), so the operation is total and never raises: its type here is
a plain pair of the boolean and the emitted log lines. -/
def health_check (db : DB) : Bool × List String :=
  match db.healthResult with
  | Except.error e => (false, ["Health check failed: " ++ e])
  | Except.ok rows =>
      match execSingle rows with
      | none => (false, [])
      | some r => (StatusRow.get r "status" == some 1, [])

end WorkoutService

/-- HTTP response of a lookup endpoint: a 200 with the WorkoutResponse
envelope, or a raised HTTPException with a status code and detail. -/
inductive ApiResponse where
  | ok (body : WorkoutResponse)
  | httpError (statusCode : Nat) (detail : String)
deriving DecidableEq

/-- Result of running a lookup handler: the HTTP response, the queries
issued through the service, and the emitted log lines. -/
structure ApiOut where
  response : ApiResponse
  queries : List QueryId
  log : List String
deriving DecidableEq

/-- Body of the GET /health response dict. -/
structure HealthPayload where
  status : String
  service : String
  database : String
deriving DecidableEq

/-- HTTP response of the health endpoint: 200 with the status dict, or a
raised HTTPException. -/
inductive HealthResponse where
  | ok (payload : HealthPayload)
  | httpError (statusCode : Nat) (detail : String)
deriving DecidableEq

namespace Api

/-- get_workout from src/app/api/workouts.py: validate year, month, day in
that order (each failure a 400 with its own message, before any service
call), construct the date (failure gives 400 "Invalid date: ..."), then
call the service; a raised error becomes a logged 500
"Internal server error", absence a success=false envelope, presence a
success=true envelope. -/
def get_workout (db : DB) (year month day : Int) (url_slug : String) : ApiOut :=
  if ¬(2000 ≤ year ∧ year ≤ 9999) then
    ⟨ApiResponse.httpError 400 "Year must be between 2000 and 9999", [], []⟩
  else if ¬(1 ≤ month ∧ month ≤ 12) then
    ⟨ApiResponse.httpError 400 "Month must be between 1 and 12", [], []⟩
  else if ¬(1 ≤ day ∧ day ≤ 31) then
    ⟨ApiResponse.httpError 400 "Day must be between 1 and 31", [], []⟩
  else
    match mkDate year month day with
    | Except.error e => ⟨ApiResponse.httpError 400 ("Invalid date: " ++ e), [], []⟩
    | Except.ok workout_date =>
        match WorkoutService.get_workout_by_date_and_slug db workout_date url_slug with
        | ⟨Except.error e, qs, lg⟩ =>
            ⟨ApiResponse.httpError 500 "Internal server error", qs,
              lg ++ ["Error retrieving workout: " ++ e]⟩
        | ⟨Except.ok none, qs, lg⟩ =>
            ⟨ApiResponse.ok ⟨false,
                some ("No workout found for " ++ dateStr workout_date ++
                  " with slug \x27" ++ url_slug ++ "\x27"), none⟩, qs, lg⟩
        | ⟨Except.ok (some w), qs, lg⟩ =>
            ⟨ApiResponse.ok ⟨true, some "Workout data retrieved successfully",
                some w⟩, qs, lg⟩

/-- search_workout from src/app/api/workouts.py: the handler body, which
runs on a WorkoutRequest that already passed the pydantic envelope
constraints.  Same flow as get_workout minus the three field-range
checks. -/
def search_workout (db : DB) (request : WorkoutRequest) : ApiOut :=
  match mkDate request.year request.month request.day with
  | Except.error e => ⟨ApiResponse.httpError 400 ("Invalid date: " ++ e), [], []⟩
  | Except.ok workout_date =>
      match WorkoutService.get_workout_by_date_and_slug db workout_date request.url_slug with
      | ⟨Except.error e, qs, lg⟩ =>
          ⟨ApiResponse.httpError 500 "Internal server error", qs,
            lg ++ ["Error retrieving workout: " ++ e]⟩
      | ⟨Except.ok none, qs, lg⟩ =>
          ⟨ApiResponse.ok ⟨false,
              some ("No workout found for " ++ dateStr workout_date ++
                " with slug \x27" ++ request.url_slug ++ "\x27"), none⟩, qs, lg⟩
      | ⟨Except.ok (some w), qs, lg⟩ =>
          ⟨ApiResponse.ok ⟨true, some "Workout data retrieved successfully",
              some w⟩, qs, lg⟩

/-- The full POST /workouts/search pipeline: pydantic validates the
envelope field ranges and rejects violations with 422 before the handler
runs; otherwise the handler search_workout runs on the parsed request. -/
def post_search (db : DB) (year month day : Int) (url_slug : String) : ApiOut :=
  if WorkoutRequest.valid ⟨year, month, day, url_slug⟩ then
    search_workout db ⟨year, month, day, url_slug⟩
  else
    ⟨ApiResponse.httpError 422 "Unprocessable Entity", [], []⟩

/-- The try/except shape of the health handler: given the outcome of the
awaited service call (a boolean and its log, or a raised error), build the
status dict, or map the raised error to 503 "Service unavailable". -/
def health_route (outcome : Except String (Bool × List String)) :
    HealthResponse × List String :=
  match outcome with
  | Except.ok (db_healthy, lg) =>
      (HealthResponse.ok
        ⟨if db_healthy then "healthy" else "unhealthy",
          "f3rva-workout-service",
          if db_healthy then "connected" else "disconnected"⟩, lg)
  | Except.error e =>
      (HealthResponse.httpError 503 "Service unavailable",
        ["Health check failed: " ++ e])

/-- health_check endpoint from src/app/api/workouts.py.  The service call
WorkoutService.health_check is total (its own catch-all except absorbs
every raised error into false), so the outcome handed to health_route is
always Except.ok and the 503 branch is reachable only for failures other
than the service call itself. -/
def health_check (db : DB) : HealthResponse × List String :=
  health_route (Except.ok (WorkoutService.health_check db))

end Api

/-- Mutable state of the DatabaseConnection manager from
src/app/core/database.py: the stored _connection attribute (None, or an
open connection identified by a number). -/
structure DatabaseConnection where
  _connection : Option Nat
deriving DecidableEq

/-- Observable events of one gateway operation. -/
inductive GEvent where
  | connectAttempt
  | connected
  | rolledBack
  | closed
deriving DecidableEq

/-- Oracle for one gateway operation: the outcome pymysql.connect would
produce (a fresh connection id, or a raised error), and the outcome the
cursor execute and fetchall would produce on that connection. -/
structure GatewayOracle where
  connectResult : Except String Nat
  queryResult : Except String (List StatusRow)
deriving DecidableEq

namespace DatabaseConnection

/-- connect: call pymysql.connect and store the result in _connection;
when pymysql.connect raises, the assignment never happens, the error is
logged and re-raised. -/
def connect (st : DatabaseConnection) (o : GatewayOracle) :
    Except String Nat × DatabaseConnection × List GEvent :=
  match o.connectResult with
  | Except.ok c => (Except.ok c, ⟨some c⟩, [GEvent.connectAttempt, GEvent.connected])
  | Except.error e => (Except.error e, st, [GEvent.connectAttempt])

/-- disconnect: close the stored connection when one is present and clear
_connection; a no-op otherwise. -/
def disconnect (st : DatabaseConnection) : DatabaseConnection × List GEvent :=
  match st._connection with
  | some _ => (⟨none⟩, [GEvent.closed])
  | none => (st, [])

/-- Result of a gateway operation: returned value or raised error, the
manager state after the operation, and the events in order. -/
structure GatewayOut (α : Type) where
  result : Except String α
  state : DatabaseConnection
  events : List GEvent
deriving DecidableEq

/-- execute_query: inside get_connection, which tries connect (a raise
leaves the local connection variable unset, so no rollback happens),
yields the connection to the cursor execute and fetchall (a raise there
rolls back), and in every case runs disconnect in the finally block. -/
def execute_query (st : DatabaseConnection) (o : GatewayOracle) :
    GatewayOut (List StatusRow) :=
  match connect st o with
  | (Except.error e, st1, ev1) =>
      let (st2, ev2) := disconnect st1
      ⟨Except.error e, st2, ev1 ++ ev2⟩
  | (Except.ok _, st1, ev1) =>
      match o.queryResult with
      | Except.error e =>
          let (st2, ev2) := disconnect st1
          ⟨Except.error e, st2, ev1 ++ [GEvent.rolledBack] ++ ev2⟩
      | Except.ok rows =>
          let (st2, ev2) := disconnect st1
          ⟨Except.ok rows, st2, ev1 ++ ev2⟩

/-- execute_single: execute_query, then the first row when the result
list is non-empty, None otherwise. -/
def execute_single (st : DatabaseConnection) (o : GatewayOracle) :
    GatewayOut (Option StatusRow) :=
  match execute_query st o with
  | ⟨Except.error e, st1, ev⟩ => ⟨Except.error e, st1, ev⟩
  | ⟨Except.ok rows, st1, ev⟩ => ⟨Except.ok (execSingle rows), st1, ev⟩

end DatabaseConnection

/-! ## Helper lemmas and spec-side predicates -/

/-- The not-found message always starts with a non-empty literal, so it is
never the empty string. -/
theorem no_workout_msg_ne_empty (a b c d : String) :
    "No workout found for " ++ a ++ b ++ c ++ d ≠ "" := by
  intro h
  rw [String.ext_iff] at h
  simp [String.data_append] at h

/-- The envelope invariant of claim C2, stated over a lookup response:
when the envelope is produced (status 200), success = true forces a
non-null data record and success = false forces a null record together
with a non-empty message. -/
def envelopeOk (r : ApiResponse) : Prop :=
  match r with
  | ApiResponse.ok body =>
      (body.success = true → body.data ≠ none) ∧
      (body.success = false → body.data = none ∧ body.message.getD "" ≠ "")
  | ApiResponse.httpError _ _ => True

/-- A database oracle on which every query succeeds with no rows. -/
def dbAllEmpty : DB :=
  ⟨Except.ok [], Except.ok [], Except.ok [], Except.ok []⟩

/-! ## Claims -/

/-- C1: whenever the session-header query yields no row,
get_workout_by_date_and_slug returns None and the only query issued is
the header query: the participant and activity-segment queries are never
issued. -/
theorem find_workout_absent_header_skips_dependent_queries
    (db : DB) (workout_date : Date) (url_slug : String)
    (h : db.headerResult = Except.ok []) :
    (WorkoutService.get_workout_by_date_and_slug db workout_date url_slug).result
        = Except.ok none ∧
    (WorkoutService.get_workout_by_date_and_slug db workout_date url_slug).queries
        = [QueryId.header] := by
  unfold WorkoutService.get_workout_by_date_and_slug
  rw [h]
  simp [execSingle]

/-- Witness for C1 at a concrete oracle, date and slug. -/
theorem find_workout_absent_header_skips_dependent_queries_witness :
    (WorkoutService.get_workout_by_date_and_slug dbAllEmpty ⟨2024, 1, 15⟩ "tc").result
        = Except.ok none ∧
    (WorkoutService.get_workout_by_date_and_slug dbAllEmpty ⟨2024, 1, 15⟩ "tc").queries
        = [QueryId.header] :=
  find_workout_absent_header_skips_dependent_queries dbAllEmpty ⟨2024, 1, 15⟩ "tc" rfl

/-- C2: every envelope produced by the GET path handler and the POST
search handler satisfies the success/data/message invariant. -/
theorem lookup_envelope_invariant (db : DB) (year month day : Int)
    (url_slug : String) (request : WorkoutRequest) :
    envelopeOk (Api.get_workout db year month day url_slug).response ∧
    envelopeOk (Api.search_workout db request).response := by
  constructor
  · unfold Api.get_workout
    split
    · exact trivial
    · split
      · exact trivial
      · split
        · exact trivial
        · split
          · exact trivial
          · split
            · exact trivial
            · simp [envelopeOk, no_workout_msg_ne_empty]
            · simp [envelopeOk]
  · unfold Api.search_workout
    split
    · exact trivial
    · split
      · exact trivial
      · simp [envelopeOk, no_workout_msg_ne_empty]
      · simp [envelopeOk]

/-- C3: the path handler checks the year bound, then the month bound,
then the day bound; the first failing bound yields a 400 naming that
field, with no query issued and nothing logged. -/
theorem path_field_validation_order (db : DB) (year month day : Int)
    (url_slug : String) :
    (¬(2000 ≤ year ∧ year ≤ 9999) →
      Api.get_workout db year month day url_slug =
        ⟨ApiResponse.httpError 400 "Year must be between 2000 and 9999", [], []⟩) ∧
    ((2000 ≤ year ∧ year ≤ 9999) → ¬(1 ≤ month ∧ month ≤ 12) →
      Api.get_workout db year month day url_slug =
        ⟨ApiResponse.httpError 400 "Month must be between 1 and 12", [], []⟩) ∧
    ((2000 ≤ year ∧ year ≤ 9999) → (1 ≤ month ∧ month ≤ 12) →
        ¬(1 ≤ day ∧ day ≤ 31) →
      Api.get_workout db year month day url_slug =
        ⟨ApiResponse.httpError 400 "Day must be between 1 and 31", [], []⟩) := by
  refine ⟨?_, ?_, ?_⟩
  · intro hy
    unfold Api.get_workout
    rw [if_pos hy]
  · intro hy hm
    unfold Api.get_workout
    rw [if_neg (not_not_intro hy), if_pos hm]
  · intro hy hm hd
    unfold Api.get_workout
    rw [if_neg (not_not_intro hy), if_neg (not_not_intro hm), if_pos hd]

/-- Witness for C3: each of the three checks observed failing first at a
concrete input. -/
theorem path_field_validation_order_witness :
    Api.get_workout dbAllEmpty 1999 1 15 "tc" =
      ⟨ApiResponse.httpError 400 "Year must be between 2000 and 9999", [], []⟩ ∧
    Api.get_workout dbAllEmpty 2024 13 15 "tc" =
      ⟨ApiResponse.httpError 400 "Month must be between 1 and 12", [], []⟩ ∧
    Api.get_workout dbAllEmpty 2024 1 32 "tc" =
      ⟨ApiResponse.httpError 400 "Day must be between 1 and 31", [], []⟩ := by
  refine ⟨?_, ?_, ?_⟩
  · exact (path_field_validation_order dbAllEmpty 1999 1 15 "tc").1 (by decide)
  · exact (path_field_validation_order dbAllEmpty 2024 13 15 "tc").2.1
      (by decide) (by decide)
  · exact (path_field_validation_order dbAllEmpty 2024 1 32 "tc").2.2
      (by decide) (by decide) (by decide)

/-- Helper: inside valid field bounds and a constructible date, a raised
service error makes the GET path handler answer 500 with the generic
detail and log the cause. -/
theorem get_workout_error_case (db : DB) (year month day : Int)
    (url_slug : String) (workout_date : Date) (e : String)
    (hy : 2000 ≤ year ∧ year ≤ 9999) (hm : 1 ≤ month ∧ month ≤ 12)
    (hd : 1 ≤ day ∧ day ≤ 31)
    (hdate : mkDate year month day = Except.ok workout_date)
    (he : (WorkoutService.get_workout_by_date_and_slug db workout_date url_slug).result
        = Except.error e) :
    (Api.get_workout db year month day url_slug).response =
      ApiResponse.httpError 500 "Internal server error" ∧
    ("Error retrieving workout: " ++ e) ∈
      (Api.get_workout db year month day url_slug).log := by
  unfold Api.get_workout
  rw [if_neg (not_not_intro hy), if_neg (not_not_intro hm),
    if_neg (not_not_intro hd), hdate]
  dsimp only
  rcases hsv : WorkoutService.get_workout_by_date_and_slug db workout_date url_slug
    with ⟨res, qs, lg⟩
  rw [hsv] at he
  dsimp at he
  subst he
  simp

/-- Helper: same as get_workout_error_case for the POST search handler. -/
theorem search_workout_error_case (db : DB) (request : WorkoutRequest)
    (workout_date : Date) (e : String)
    (hdate : mkDate request.year request.month request.day = Except.ok workout_date)
    (he : (WorkoutService.get_workout_by_date_and_slug db workout_date request.url_slug).result
        = Except.error e) :
    (Api.search_workout db request).response =
      ApiResponse.httpError 500 "Internal server error" ∧
    ("Error retrieving workout: " ++ e) ∈
      (Api.search_workout db request).log := by
  unfold Api.search_workout
  rw [hdate]
  dsimp only
  rcases hsv : WorkoutService.get_workout_by_date_and_slug db workout_date request.url_slug
    with ⟨res, qs, lg⟩
  rw [hsv] at he
  dsimp at he
  subst he
  simp

/-- Helper: when the health query raises, the health endpoint still
answers 200 with the unhealthy payload and the cause is logged. -/
theorem health_check_error_case (db : DB) (e : String)
    (h : db.healthResult = Except.error e) :
    (Api.health_check db).1 =
      HealthResponse.ok ⟨"unhealthy", "f3rva-workout-service", "disconnected"⟩ ∧
    ("Health check failed: " ++ e) ∈ (Api.health_check db).2 := by
  unfold Api.health_check Api.health_route WorkoutService.health_check
  rw [h]
  simp

/-- An oracle on which the header query and the health query raise. -/
def dbStorageDown : DB :=
  ⟨Except.error "boom", Except.ok [], Except.ok [], Except.error "down"⟩

/-- C4 counterexample: with the health query raising a storage error, the
health endpoint does not answer 503 "Service unavailable"; it answers 200
with the unhealthy payload, because the service health_check absorbs the
raised error into false before the handler sees it. -/
theorem health_storage_error_answers_200_not_503 :
    (Api.health_check dbStorageDown).1 =
      HealthResponse.ok ⟨"unhealthy", "f3rva-workout-service", "disconnected"⟩ ∧
    (Api.health_check dbStorageDown).1 ≠
      HealthResponse.httpError 503 "Service unavailable" := by
  exact ⟨rfl, by decide⟩

/-- C4 amended: when the gateway cannot complete a query, the two lookup
endpoints answer 500 with the fixed generic detail
"Internal server error" and log the original cause; the health endpoint
answers 200 with the unhealthy payload (not 503, which is reserved for a
failure of the handler itself outside the absorbed service call), also
logging the cause; the client-facing texts are literals independent of
the cause. -/
theorem storage_error_lookup_500_health_degraded (db : DB)
    (year month day : Int) (url_slug : String) (workout_date : Date)
    (e e2 : String)
    (hy : 2000 ≤ year ∧ year ≤ 9999) (hm : 1 ≤ month ∧ month ≤ 12)
    (hd : 1 ≤ day ∧ day ≤ 31)
    (hdate : mkDate year month day = Except.ok workout_date)
    (he : (WorkoutService.get_workout_by_date_and_slug db workout_date url_slug).result
        = Except.error e)
    (he2 : db.healthResult = Except.error e2) :
    (Api.get_workout db year month day url_slug).response =
      ApiResponse.httpError 500 "Internal server error" ∧
    ("Error retrieving workout: " ++ e) ∈
      (Api.get_workout db year month day url_slug).log ∧
    (Api.search_workout db ⟨year, month, day, url_slug⟩).response =
      ApiResponse.httpError 500 "Internal server error" ∧
    ("Error retrieving workout: " ++ e) ∈
      (Api.search_workout db ⟨year, month, day, url_slug⟩).log ∧
    (Api.health_check db).1 =
      HealthResponse.ok ⟨"unhealthy", "f3rva-workout-service", "disconnected"⟩ ∧
    ("Health check failed: " ++ e2) ∈ (Api.health_check db).2 := by
  have hg := get_workout_error_case db year month day url_slug workout_date e
    hy hm hd hdate he
  have hs := search_workout_error_case db ⟨year, month, day, url_slug⟩
    workout_date e hdate he
  have hh := health_check_error_case db e2 he2
  exact ⟨hg.1, hg.2, hs.1, hs.2, hh.1, hh.2⟩

/-- Witness for the amended C4 at a concrete oracle and input. -/
theorem storage_error_lookup_500_health_degraded_witness :
    (Api.get_workout dbStorageDown 2024 1 15 "tc").response =
      ApiResponse.httpError 500 "Internal server error" ∧
    ("Error retrieving workout: " ++ "boom") ∈
      (Api.get_workout dbStorageDown 2024 1 15 "tc").log ∧
    (Api.search_workout dbStorageDown ⟨2024, 1, 15, "tc"⟩).response =
      ApiResponse.httpError 500 "Internal server error" ∧
    ("Error retrieving workout: " ++ "boom") ∈
      (Api.search_workout dbStorageDown ⟨2024, 1, 15, "tc"⟩).log ∧
    (Api.health_check dbStorageDown).1 =
      HealthResponse.ok ⟨"unhealthy", "f3rva-workout-service", "disconnected"⟩ ∧
    ("Health check failed: " ++ "down") ∈ (Api.health_check dbStorageDown).2 :=
  storage_error_lookup_500_health_degraded dbStorageDown 2024 1 15 "tc"
    ⟨2024, 1, 15⟩ "boom" "down" (by decide) (by decide) (by decide)
    (by decide) rfl rfl

/-- The health predicate exactly as claim C5 words it, modelled from the
claim for comparison: true iff the query outcome is exactly one row whose
status scalar equals 1. -/
def check_health_exactly_one_row (db : DB) : Bool :=
  match db.healthResult with
  | Except.ok [r] => StatusRow.get r "status" == some 1
  | _ => false

/-- An oracle on which the health query returns two rows, each with
status 1. -/
def dbTwoStatusRows : DB :=
  ⟨Except.ok [], Except.ok [], Except.ok [],
    Except.ok [[("status", 1)], [("status", 1)]]⟩

/-- C5 counterexample: with two rows of status 1, health_check returns
true although the query did not return exactly one row, so the claimed
equivalence fails. -/
theorem check_health_two_rows_counterexample :
    (WorkoutService.health_check dbTwoStatusRows).1 = true ∧
    check_health_exactly_one_row dbTwoStatusRows = false := by
  exact ⟨rfl, rfl⟩

/-- C5 amended: health_check returns true iff the query returns at least
one row and the first row has status scalar 1; a raised error, an absent
row or a differing first-row scalar all give false.  The operation is
total by construction (the catch-all except in the source), so it never
raises. -/
theorem check_health_true_iff_first_row_status_one (db : DB) :
    (WorkoutService.health_check db).1 = true ↔
      ∃ rows r, db.healthResult = Except.ok rows ∧ rows.head? = some r ∧
        StatusRow.get r "status" = some 1 := by
  rcases db with ⟨hr, pr, ar, hres⟩
  cases hres with
  | error e => simp [WorkoutService.health_check]
  | ok rows =>
      cases rows with
      | nil => simp [WorkoutService.health_check, execSingle]
      | cons r t => simp [WorkoutService.health_check, execSingle]

/-- The element-wise mapping of a participant row. -/
def paxOfRow (r : PaxRow) : PAXModel := ⟨r.pax_name, r.f3_name⟩

/-- The element-wise mapping of an activity-segment row. -/
def aosOfRow (r : AosRow) : AOSModel := ⟨r.aos_name, r.description⟩

/-- C6: with a found header row, the aggregate record carries exactly the
element-wise images of the participant rows and of the activity-segment
rows, in query order; empty row lists give empty (never null, the fields
being list-valued) sequences. -/
theorem find_workout_maps_rows_in_order (db : DB) (workout_date : Date)
    (url_slug : String) (h0 : HeaderRow) (hs : List HeaderRow)
    (ps : List PaxRow) (sgs : List AosRow)
    (hh : db.headerResult = Except.ok (h0 :: hs))
    (hp : db.paxResult = Except.ok ps)
    (ha : db.aosResult = Except.ok sgs) :
    (WorkoutService._get_pax_for_workout db).result = Except.ok (ps.map paxOfRow) ∧
    (WorkoutService._get_aos_for_workout db).result = Except.ok (sgs.map aosOfRow) ∧
    (WorkoutService.get_workout_by_date_and_slug db workout_date url_slug).result =
      Except.ok (some
        { workout_date := h0.workout_date
          qic := ⟨h0.qic_name, h0.qic_f3_name⟩
          pax := ps.map paxOfRow
          aos := sgs.map aosOfRow
          url_slug := h0.url_slug }) ∧
    (ps = [] → ps.map paxOfRow = []) ∧
    (sgs = [] → sgs.map aosOfRow = []) := by
  refine ⟨?_, ?_, ?_, ?_, ?_⟩
  · unfold WorkoutService._get_pax_for_workout
    rw [hp]
    rfl
  · unfold WorkoutService._get_aos_for_workout
    rw [ha]
    rfl
  · unfold WorkoutService.get_workout_by_date_and_slug
      WorkoutService._get_pax_for_workout WorkoutService._get_aos_for_workout
    rw [hh, hp, ha]
    simp [execSingle, paxOfRow, aosOfRow]
  · intro h
    subst h
    rfl
  · intro h
    subst h
    rfl

/-- An oracle with one header row and empty dependent results. -/
def dbOneHeader : DB :=
  ⟨Except.ok [⟨⟨2024, 1, 15⟩, "tc", "Ripken", none⟩],
    Except.ok [], Except.ok [], Except.ok []⟩

/-- Witness for C6 at a concrete oracle with empty dependent results. -/
theorem find_workout_maps_rows_in_order_witness :
    (WorkoutService._get_pax_for_workout dbOneHeader).result =
      Except.ok (List.map paxOfRow []) ∧
    (WorkoutService._get_aos_for_workout dbOneHeader).result =
      Except.ok (List.map aosOfRow []) ∧
    (WorkoutService.get_workout_by_date_and_slug dbOneHeader ⟨2024, 1, 15⟩ "tc").result =
      Except.ok (some
        { workout_date := ⟨2024, 1, 15⟩
          qic := ⟨"Ripken", none⟩
          pax := List.map paxOfRow []
          aos := List.map aosOfRow []
          url_slug := "tc" }) ∧
    (([] : List PaxRow) = [] → List.map paxOfRow [] = []) ∧
    (([] : List AosRow) = [] → List.map aosOfRow [] = []) :=
  find_workout_maps_rows_in_order dbOneHeader ⟨2024, 1, 15⟩ "tc"
    ⟨⟨2024, 1, 15⟩, "tc", "Ripken", none⟩ [] [] [] rfl rfl rfl

/-- C7: inside the envelope bounds the full POST search pipeline and the
GET path handler agree on everything observable: response, issued
queries and log, for every database oracle. -/
theorem post_search_equals_get_path (db : DB) (year month day : Int)
    (url_slug : String)
    (hy : 2000 ≤ year ∧ year ≤ 9999) (hm : 1 ≤ month ∧ month ≤ 12)
    (hd : 1 ≤ day ∧ day ≤ 31) :
    Api.post_search db year month day url_slug =
      Api.get_workout db year month day url_slug := by
  have hv : WorkoutRequest.valid ⟨year, month, day, url_slug⟩ = true := by
    unfold WorkoutRequest.valid
    exact decide_eq_true ⟨hy.1, hy.2, hm.1, hm.2, hd.1, hd.2⟩
  unfold Api.post_search
  rw [if_pos hv]
  unfold Api.get_workout
  rw [if_neg (not_not_intro hy), if_neg (not_not_intro hm),
    if_neg (not_not_intro hd)]
  unfold Api.search_workout
  rfl

/-- Witness for C7 at a concrete in-bounds input and oracle. -/
theorem post_search_equals_get_path_witness :
    Api.post_search dbAllEmpty 2024 1 15 "tc" =
      Api.get_workout dbAllEmpty 2024 1 15 "tc" :=
  post_search_equals_get_path dbAllEmpty 2024 1 15 "tc"
    (by decide) (by decide) (by decide)

/-- C8: a triple inside the field bounds that is not a real calendar date
makes both endpoints answer 400 with a detail extending
"Invalid date: ", with no query issued and nothing logged. -/
theorem calendar_invalid_date_both_endpoints_400 (db : DB)
    (year month day : Int) (url_slug : String) (e : String)
    (hy : 2000 ≤ year ∧ year ≤ 9999) (hm : 1 ≤ month ∧ month ≤ 12)
    (hd : 1 ≤ day ∧ day ≤ 31)
    (he : mkDate year month day = Except.error e) :
    Api.get_workout db year month day url_slug =
      ⟨ApiResponse.httpError 400 ("Invalid date: " ++ e), [], []⟩ ∧
    Api.post_search db year month day url_slug =
      ⟨ApiResponse.httpError 400 ("Invalid date: " ++ e), [], []⟩ := by
  have hv : WorkoutRequest.valid ⟨year, month, day, url_slug⟩ = true := by
    unfold WorkoutRequest.valid
    exact decide_eq_true ⟨hy.1, hy.2, hm.1, hm.2, hd.1, hd.2⟩
  constructor
  · unfold Api.get_workout
    rw [if_neg (not_not_intro hy), if_neg (not_not_intro hm),
      if_neg (not_not_intro hd), he]
  · unfold Api.post_search
    rw [if_pos hv]
    unfold Api.search_workout
    dsimp only
    rw [he]

/-- Witness for C8 at the concrete non-date 2024-02-30. -/
theorem calendar_invalid_date_both_endpoints_400_witness :
    Api.get_workout dbAllEmpty 2024 2 30 "tc" =
      ⟨ApiResponse.httpError 400
        ("Invalid date: " ++ "day is out of range for month"), [], []⟩ ∧
    Api.post_search dbAllEmpty 2024 2 30 "tc" =
      ⟨ApiResponse.httpError 400
        ("Invalid date: " ++ "day is out of range for month"), [], []⟩ :=
  calendar_invalid_date_both_endpoints_400 dbAllEmpty 2024 2 30 "tc"
    "day is out of range for month" (by decide) (by decide) (by decide) rfl

/-- C9: both gateway operations leave the manager with no stored
connection on every exit path (successful rows, raised query error,
raised connect error), and each operation begins with a fresh connect
attempt. -/
theorem gateway_releases_connection_every_path (st : DatabaseConnection)
    (o : GatewayOracle) :
    (DatabaseConnection.execute_query st o).state._connection = none ∧
    (DatabaseConnection.execute_single st o).state._connection = none ∧
    (DatabaseConnection.execute_query st o).events.head? =
      some GEvent.connectAttempt ∧
    (DatabaseConnection.execute_single st o).events.head? =
      some GEvent.connectAttempt := by
  rcases st with ⟨c⟩
  rcases o with ⟨cr, qr⟩
  cases cr <;> cases qr <;> cases c <;>
    simp [DatabaseConnection.execute_query, DatabaseConnection.execute_single,
      DatabaseConnection.connect, DatabaseConnection.disconnect]

/-- C10: the health payload always has status and database fields in
agreement, both reflecting the boolean of the service health check, and
the endpoint answers 200 (an ok payload, no raised HTTPException) in the
healthy and the unhealthy case alike. -/
theorem health_payload_status_database_agree (db : DB) :
    ∃ p, (Api.health_check db).1 = HealthResponse.ok p ∧
      (p.status = "healthy" ↔ p.database = "connected") ∧
      (p.status = "healthy" ↔ (WorkoutService.health_check db).1 = true) := by
  rcases hhc : WorkoutService.health_check db with ⟨b, lg⟩
  refine ⟨⟨if b then "healthy" else "unhealthy", "f3rva-workout-service",
      if b then "connected" else "disconnected"⟩, ?_, ?_, ?_⟩
  · unfold Api.health_check Api.health_route
    rw [hhc]
  · cases b <;> simp
  · cases b <;> simp

end F3
